import Mathlib

/-!
Verification of the otf trust-establishment subsystem: the OAuth-style
Authorization Code + PKCE login endpoints (`tfapi`), the discovery document,
and the configuration-version lifecycle with its signed-URL upload endpoint
(`tfeapi` / `configversion`).  Go source files are shallowly embedded as pure
Lean functions; machine words are `Nat` reduced modulo `2^32` where the Go
code uses 32-bit arithmetic.
-/

namespace OTF

/-! ### Bytes and 32-bit words

Embedding of the byte/word arithmetic used by the Go `crypto/sha256` and
`encoding/base64`.  A byte is a `Nat < 256`; a word is a `Nat < 2^32`,
maintained by explicit reduction `w32`. -/

abbrev Bytes := List Nat

def w32 (x : Nat) : Nat := x % 4294967296

def rotr32 (n x : Nat) : Nat := (x >>> n) ||| w32 (x <<< (32 - n))

def shr32 (n x : Nat) : Nat := x >>> n

def not32 (x : Nat) : Nat := 4294967295 - x

/-! ### SHA-256 (crypto/sha256)

Direct embedding of the FIPS 180-4 algorithm invoked by
`sha256.Sum256([]byte(params.CodeVerifier))` in `login.go`. -/

def sha256K : List Nat :=
  [1116352408, 1899447441, 3049323471, 3921009573, 961987163,
   1508970993, 2453635748, 2870763221, 3624381080, 310598401,
   607225278, 1426881987, 1925078388, 2162078206, 2614888103,
   3248222580, 3835390401, 4022224774, 264347078, 604807628,
   770255983, 1249150122, 1555081692, 1996064986, 2554220882,
   2821834349, 2952996808, 3210313671, 3336571891, 3584528711,
   113926993, 338241895, 666307205, 773529912, 1294757372,
   1396182291, 1695183700, 1986661051, 2177026350, 2456956037,
   2730485921, 2820302411, 3259730800, 3345764771, 3516065817,
   3600352804, 4094571909, 275423344, 430227734, 506948616,
   659060556, 883997877, 958139571, 1322822218, 1537002063,
   1747873779, 1955562222, 2024104815, 2227730452, 2361852424,
   2428436474, 2756734187, 3204031479, 3329325298]

def sha256H0 : List Nat :=
  [1779033703, 3144134277, 1013904242, 2773480762,
   1359893119, 2600822924, 528734635, 1541459225]

def ssig0 (x : Nat) : Nat := (rotr32 7 x) ^^^ (rotr32 18 x) ^^^ (shr32 3 x)
def ssig1 (x : Nat) : Nat := (rotr32 17 x) ^^^ (rotr32 19 x) ^^^ (shr32 10 x)
def bsig0 (x : Nat) : Nat := (rotr32 2 x) ^^^ (rotr32 13 x) ^^^ (rotr32 22 x)
def bsig1 (x : Nat) : Nat := (rotr32 6 x) ^^^ (rotr32 11 x) ^^^ (rotr32 25 x)

def chFn (e f g : Nat) : Nat := (e &&& f) ^^^ ((not32 e) &&& g)
def majFn (a b c : Nat) : Nat := (a &&& b) ^^^ (a &&& c) ^^^ (b &&& c)

/-- Big-endian byte expansion: `beBytes n v` is the `n` low-order bytes of
`v`, most significant first. -/
def beBytes : Nat → Nat → Bytes
  | 0, _ => []
  | n + 1, v => beBytes n (v / 256) ++ [v % 256]

/-- SHA-256 padding: append `0x80`, zero bytes to 56 mod 64, then the
64-bit big-endian bit length. -/
def sha256Pad (msg : Bytes) : Bytes :=
  let z := (119 - msg.length % 64) % 64
  msg ++ (0x80 :: List.replicate z 0) ++ beBytes 8 (8 * msg.length)

/-- Group bytes into big-endian 32-bit words. -/
def bytesToWords : Bytes → List Nat
  | b0 :: b1 :: b2 :: b3 :: rest =>
      (((b0 * 256 + b1) * 256 + b2) * 256 + b3) :: bytesToWords rest
  | _ => []

/-- Extend the 16-word block to the 64-word message schedule
(`n` steps remaining). -/
def extendSchedule : Nat → Array Nat → Array Nat
  | 0, w => w
  | n + 1, w =>
      let i := w.size
      let x := w32 (ssig1 (w.getD (i - 2) 0) + w.getD (i - 7) 0 +
                    ssig0 (w.getD (i - 15) 0) + w.getD (i - 16) 0)
      extendSchedule n (w.push x)

/-- One pass of the 64 compression rounds over schedule `ws` and round
constants `ks`, acting on the eight-word working state. -/
def compressWords : List Nat → List Nat → List Nat → List Nat
  | wi :: ws, ki :: ks, [a, b, c, d, e, f, g, h] =>
      let t1 := w32 (h + bsig1 e + chFn e f g + ki + wi)
      let t2 := w32 (bsig0 a + majFn a b c)
      compressWords ws ks [w32 (t1 + t2), a, b, c, w32 (d + t1), e, f, g]
  | _, _, s => s

/-- Split into 64-byte chunks (fuel-indexed; `l.length` fuel suffices since
each step consumes 64 bytes). -/
def chunks64Fuel : Nat → Bytes → List Bytes
  | 0, _ => []
  | _, [] => []
  | n + 1, l => l.take 64 :: chunks64Fuel n (l.drop 64)

def chunks64 (l : Bytes) : List Bytes := chunks64Fuel l.length l

def sha256Chunk (st : List Nat) (chunk : Bytes) : List Nat :=
  let ws := (extendSchedule 48 (Array.mk (bytesToWords chunk))).toList
  let c := compressWords ws sha256K st
  List.zipWith (fun x y => w32 (x + y)) st c

/-- `sha256 msg` is the 32-byte SHA-256 digest of `msg`. -/
def sha256 (msg : Bytes) : Bytes :=
  (((chunks64 (sha256Pad msg)).foldl sha256Chunk sha256H0).map (beBytes 4)).flatten

/-! ### UTF-8 and base64url (encoding/base64 RawURLEncoding)

`[]byte(s)` in Go yields the UTF-8 bytes of `s`;
`base64.RawURLEncoding.EncodeToString` is unpadded base64 with the URL
alphabet. -/

def utf8Encode (c : Char) : Bytes :=
  let n := c.toNat
  if n < 0x80 then [n]
  else if n < 0x800 then [0xC0 ||| (n >>> 6), 0x80 ||| (n &&& 63)]
  else if n < 0x10000 then
    [0xE0 ||| (n >>> 12), 0x80 ||| ((n >>> 6) &&& 63), 0x80 ||| (n &&& 63)]
  else
    [0xF0 ||| (n >>> 18), 0x80 ||| ((n >>> 12) &&& 63),
     0x80 ||| ((n >>> 6) &&& 63), 0x80 ||| (n &&& 63)]

def strBytes (s : String) : Bytes :=
  s.data.foldr (fun c acc => utf8Encode c ++ acc) []

def b64urlAlphabet : List Char :=
  "ABCDEFGHIJKLMNOPQRSTUVWXYZabcdefghijklmnopqrstuvwxyz0123456789-_".data

def b64Char (n : Nat) : Char := b64urlAlphabet.getD n 'A'

def b64urlChars : Bytes → List Char
  | b0 :: b1 :: b2 :: rest =>
      b64Char (b0 >>> 2) :: b64Char (((b0 &&& 3) <<< 4) ||| (b1 >>> 4)) ::
      b64Char (((b1 &&& 15) <<< 2) ||| (b2 >>> 6)) :: b64Char (b2 &&& 63) ::
      b64urlChars rest
  | [b0, b1] =>
      [b64Char (b0 >>> 2), b64Char (((b0 &&& 3) <<< 4) ||| (b1 >>> 4)),
       b64Char ((b1 &&& 15) <<< 2)]
  | [b0] => [b64Char (b0 >>> 2), b64Char ((b0 &&& 3) <<< 4)]
  | [] => []

def b64urlEncode (bs : Bytes) : String := String.mk (b64urlChars bs)

/-- `login.go` lines 182-183: the PKCE challenge recomputed from a verifier:
`base64.RawURLEncoding.EncodeToString(sha256.Sum256([]byte(v)))`. -/
def pkceChallenge (v : String) : String := b64urlEncode (sha256 (strBytes v))

/-! ### URLs and query strings (net/url)

A parsed URL is its pre-query text plus the query as an ordered list of
key/value pairs (the multi-valued `url.Values` semantics; `Add` appends).
`net/url.Parse` rejects URLs containing ASCII control characters; that is
the failure mode modelled here.  Percent-decoding of query values is not
modelled; no claim depends on it. -/

structure GoURL where
  base : String
  query : List (String × String)
deriving DecidableEq, Repr

def isCtl (c : Char) : Bool := c.toNat < 32 || c.toNat == 127

/-- Split a character list at every occurrence of `c` (the pieces, in
order; an empty input gives one empty piece). -/
def splitOnChar (c : Char) (l : List Char) : List (List Char) :=
  l.foldr
    (fun x acc =>
      match acc with
      | [] => [[x]]
      | h :: t => if x = c then [] :: h :: t else (x :: h) :: t)
    [[]]

/-- Split a character list at the first occurrence of `c`: the part before
it and, when `c` occurs, the part after it. -/
def breakAtChar (c : Char) : List Char → List Char × Option (List Char)
  | [] => ([], none)
  | x :: xs =>
      if x = c then ([], some xs)
      else
        let r := breakAtChar c xs
        (x :: r.1, r.2)

/-- Query parsing (`url.Values`): components split on the ampersand, keys
from values at the first equals sign, empty components skipped. -/
def parseQueryPairs (q : List Char) : List (String × String) :=
  ((splitOnChar '&' q).filter (fun kv => kv ≠ [])).map
    (fun kv =>
      let r := breakAtChar '=' kv
      (String.mk r.1, match r.2 with | none => "" | some v => String.mk v))

/-- Model of `net/url.Parse`: fails exactly on control characters; otherwise
splits off the query at the first question mark. -/
def urlParse (s : String) : Option GoURL :=
  if s.data.any isCtl then none
  else
    let r := breakAtChar '?' s.data
    some ⟨String.mk r.1, match r.2 with | none => [] | some q => parseQueryPairs q⟩

/-! ### tfapi login endpoints (`internal/controllers/tfapi/login.go`)

The handlers are embedded as pure functions from the decoded request
parameters (the `schema` structs of `Auth` and `Token`; `decode.All` is
transport glue outside the embedding) to an HTTP response value. -/

def OAuthClientID : String := "terraform"

def ErrInvalidRequest : String := "invalid_request"
def ErrInvalidGrant : String := "invalid_grant"
def ErrInvalidClient : String := "invalid_client"
def ErrUnsupportedGrantType : String := "unsupported_grant_type"
def ErrUnsupportedResponseType : String := "unsupported_response_type"
def ErrAccessDenied : String := "access_denied"
def ErrServerError : String := "server_error"

/-- The `authcode` struct of `login.go`: the entire server-side session,
sealed into the authorization code. -/
structure Authcode where
  codeChallenge : String
  codeChallengeMethod : String
  username : String
deriving DecidableEq, Repr

/-- Modelled from the spec: `internal.Encrypt` / `internal.Decrypt` (the
CodeCodec of section 4.3) are not under the analysed sources.  The spec
requires authenticated encryption: `open(seal(p, k), k) = p` and opening
under any other key fails with an integrity error.  The model carries the
payload together with the sealing key; opening compares keys. -/
structure SealedCode where
  payload : Authcode
  key : String
deriving DecidableEq, Repr

def sealCode (p : Authcode) (k : String) : SealedCode := ⟨p, k⟩

def openCode (c : SealedCode) (k : String) : Option Authcode :=
  if c.key = k then some c.payload else none

/-- The observable outcome of an `Auth` or `Token` invocation:
`http.Error` (direct status), a `tokenRedirector.Error` redirect, the
consent page render, the success redirect carrying the sealed code, or the
JSON token response. -/
inductive Response where
  | directError (status : Nat) (msg : String)
  | redirect (status : Nat) (url : GoURL)
  | consentPage
  | codeRedirect (status : Nat) (url : GoURL) (code : SealedCode)
  | tokenJSON (status : Nat) (headers : List (String × String))
      (accessToken : String) (tokenType : String)
deriving DecidableEq, Repr

/-- `tokenRedirector`: the redirect-channel error writer of `login.go`
lines 215-234. -/
structure TokenRedirector where
  redirect : GoURL
  state : String
deriving DecidableEq, Repr

/-- `tokenRedirector.Error`: append `error`, the optional
`error_description`, and `state` when non-empty, then redirect 302. -/
def TokenRedirector.errorResp (tr : TokenRedirector) (err description : String) : Response :=
  let q := tr.redirect.query ++ [("error", err)]
  let q := if description ≠ "" then q ++ [("error_description", description)] else q
  let q := if tr.state ≠ "" then q ++ [("state", tr.state)] else q
  .redirect 302 { tr.redirect with query := q }

/-- The decoded parameters of `Auth`. -/
structure AuthParams where
  clientID : String
  codeChallenge : String
  codeChallengeMethod : String
  redirectURI : String
  responseType : String
  state : String
  consented : Bool
deriving DecidableEq, Repr

/-- The request-scoped collaborators of `Auth`: the process secret, the
HTTP method, and the authenticated user from the request context
(`none` models a `user.UserFromContext` failure). -/
structure AuthCtx where
  secret : String
  method : String
  ctxUser : Option String
deriving DecidableEq, Repr

/-- `TerraformAPIService.Auth` (`login.go` lines 52-129). -/
def auth (s : AuthCtx) (p : AuthParams) : Response :=
  match urlParse p.redirectURI with
  | none => .directError 400 "invalid redirect_uri"
  | some redirect =>
    if p.clientID ≠ OAuthClientID then .directError 400 ErrInvalidClient
    else
      let tr : TokenRedirector := ⟨redirect, p.state⟩
      if p.responseType ≠ "code" then
        tr.errorResp ErrUnsupportedResponseType "unsupported response type"
      else if p.codeChallengeMethod ≠ "S256" then
        tr.errorResp ErrInvalidRequest "unsupported code challenge method"
      else if s.method = "GET" then .consentPage
      else if ¬ p.consented then tr.errorResp ErrAccessDenied "user denied consent"
      else match s.ctxUser with
        | none => tr.errorResp ErrServerError "no user in context"
        | some username =>
          let code := sealCode ⟨p.codeChallenge, p.codeChallengeMethod, username⟩ s.secret
          .codeRedirect 302 { redirect with query := redirect.query ++ [("state", p.state)] } code

/-- The decoded parameters of `Token`; `code = none` models the empty
`code` parameter (the `params.Code == ""` check). -/
structure TokenParams where
  clientID : String
  code : Option SealedCode
  codeVerifier : String
  grantType : String
  redirectURI : String
deriving DecidableEq, Repr

/-- The collaborators of `Token`: the process secret and the token issuer
(`tok.CreateToken`, mapping the embedded username to a minted token;
`none` models issuer failure). -/
structure TokenCtx where
  secret : String
  createToken : String → Option String

/-- `TerraformAPIService.Token` (`login.go` lines 131-213). -/
def token (s : TokenCtx) (p : TokenParams) : Response :=
  match urlParse p.redirectURI with
  | none => .directError 400 "invalid redirect_uri"
  | some redirect =>
    if p.clientID ≠ OAuthClientID then .directError 400 ErrInvalidClient
    else
      let tr : TokenRedirector := ⟨redirect, ""⟩
      match p.code with
      | none => tr.errorResp ErrInvalidRequest "missing code"
      | some c =>
        if p.codeVerifier = "" then tr.errorResp ErrInvalidRequest "missing code verifier"
        else if p.grantType ≠ "authorization_code" then tr.errorResp ErrUnsupportedGrantType ""
        else match openCode c s.secret with
          | none => tr.errorResp ErrInvalidRequest "decrypting authentication code: message authentication failed"
          | some code =>
            let encoded := pkceChallenge p.codeVerifier
            if encoded ≠ code.codeChallenge then tr.errorResp ErrInvalidGrant encoded
            else match s.createToken code.username with
              | none => tr.errorResp ErrInvalidRequest "creating token failed"
              | some tok =>
                .tokenJSON 200 [("Content-Type", "application/json"), ("Cache-Control", "no-store")]
                  tok "bearer"

/-- True exactly on the success response of `Token` (a minted token was
returned). -/
def Response.isSuccessToken : Response → Bool
  | .tokenJSON _ _ _ _ => true
  | _ => false

/-! ### Discovery document (`internal/controllers/tfapi/discovery.go`)

`discoveryPayload` is a package-level variable computed once at process
start by `utils.MustJSONMarshal`; the handler writes it verbatim with
`Content-Type: application/json`.  The encoder below reproduces the Go
`encoding/json` output for this payload: fields in declaration order, keys
from the struct tags, strings escaped with the HTML-safe rules. -/

def AuthRoute : String := "/app/oauth2/auth"
def TokenRoute : String := "/oauth2/token"

/-- `tfeapi.ModuleV1Prefix` from the library package. -/
def moduleV1Path : String := "/v1/modules/"

/-- `tfeapi.APIPrefixV2` from the library package (trailing slash). -/
def apiV2Path : String := "/api/v2/"

def hexDigit (n : Nat) : Char := "0123456789abcdef".data.getD n '0'

/-- One character escaped as `encoding/json` does (HTML escaping on). -/
def jsonEscapeChar (c : Char) : String :=
  if c = '"' then "\\\""
  else if c = '\\' then "\\\\"
  else if c = '\n' then "\\n"
  else if c = '\r' then "\\r"
  else if c = '\t' then "\\t"
  else if c.toNat < 32 then
    String.mk ['\\', 'u', '0', '0', hexDigit (c.toNat / 16), hexDigit (c.toNat % 16)]
  else if c = '<' then "\\u003c"
  else if c = '>' then "\\u003e"
  else if c = '&' then "\\u0026"
  else String.singleton c

def jsonStr (s : String) : String :=
  "\"" ++ String.join (s.data.map jsonEscapeChar) ++ "\""

def jsonNatList (l : List Nat) : String :=
  "[" ++ String.intercalate "," (l.map toString) ++ "]"

/-- The `loginDiscovery` struct of `discovery.go`. -/
structure LoginDiscovery where
  authz : String
  tokenEndpoint : String
  client : String
  ports : List Nat
deriving DecidableEq, Repr

def loginDiscoveryJSON (d : LoginDiscovery) : String :=
  "\x7b" ++ jsonStr "authz" ++ ":" ++ jsonStr d.authz ++
  "," ++ jsonStr "token" ++ ":" ++ jsonStr d.tokenEndpoint ++
  "," ++ jsonStr "client" ++ ":" ++ jsonStr d.client ++
  "," ++ jsonStr "ports" ++ ":" ++ jsonNatList d.ports ++ "\x7d"

/-- The `login.v1` value baked into `discoveryPayload`. -/
def loginV1 : LoginDiscovery :=
  { authz := AuthRoute, tokenEndpoint := TokenRoute,
    client := OAuthClientID, ports := [10000, 10010] }

/-- The marshalled discovery document (the `discoveryPayload` variable). -/
def discoveryPayload : String :=
  "\x7b" ++ jsonStr "login.v1" ++ ":" ++ loginDiscoveryJSON loginV1 ++
  "," ++ jsonStr "modules.v1" ++ ":" ++ jsonStr moduleV1Path ++
  "," ++ jsonStr "motd.v1" ++ ":" ++ jsonStr "/api/terraform/motd" ++
  "," ++ jsonStr "state.v2" ++ ":" ++ jsonStr apiV2Path ++
  "," ++ jsonStr "tfe.v2" ++ ":" ++ jsonStr apiV2Path ++
  "," ++ jsonStr "tfe.v2.1" ++ ":" ++ jsonStr apiV2Path ++
  "," ++ jsonStr "tfe.v2.2" ++ ":" ++ jsonStr apiV2Path ++ "\x7d"

/-- An incoming HTTP request as the embedded handlers observe it. -/
structure HttpRequest where
  method : String
  scheme : String
  host : String
  headers : List (String × String)
deriving DecidableEq, Repr

/-- A plain body-plus-headers response (the discovery handler writes the
payload with an implicit 200). -/
structure BodyResponse where
  status : Nat
  headers : List (String × String)
  body : String
deriving DecidableEq, Repr

/-- `TerraformAPIService.Discovery`: sets the content type and writes the
precomputed payload, ignoring the request. -/
def discovery (_r : HttpRequest) : BodyResponse :=
  { status := 200, headers := [("Content-Type", "application/json")], body := discoveryPayload }

/-! ### Configuration versions (`internal/configversion/service.go`)

The service is embedded with explicit state passing: the abstract
transactional store is a list of configuration versions, each operation
returns its result together with the store it leaves behind.  The
Authorizer collaborator is a function from (action, workspaceID) to either
a subject or an authorization error. -/

inductive CVStatus
  | pending
  | uploaded
  | errored
deriving DecidableEq, Repr

inductive CVSource
  | api
  | terraform
deriving DecidableEq, Repr

/-- Modelled from the spec: the string names of the two sources
(`source ∈ \x7bapi, terraform-cli\x7d`); the defining constants
`configversion.SourceAPI` / `SourceTerraform` are not under the analysed
sources. -/
def CVSource.str : CVSource → String
  | .api => "api"
  | .terraform => "terraform-cli"

def CVStatus.str : CVStatus → String
  | .pending => "pending"
  | .uploaded => "uploaded"
  | .errored => "errored"

structure IngressAttributes where
  commitSHA : String
  commitURL : String
deriving DecidableEq, Repr

structure ConfigurationVersion where
  id : String
  workspaceID : String
  status : CVStatus
  statusTimestamps : List (CVStatus × Nat)
  autoQueueRuns : Bool
  speculative : Bool
  source : CVSource
  ingress : Option IngressAttributes
deriving DecidableEq, Repr

structure Store where
  cvs : List ConfigurationVersion
deriving DecidableEq, Repr

def Store.get (st : Store) (id : String) : Option ConfigurationVersion :=
  st.cvs.find? (fun cv => cv.id = id)

def Store.getLatest (st : Store) (workspaceID : String) : Option ConfigurationVersion :=
  (st.cvs.filter (fun cv => cv.workspaceID = workspaceID)).getLast?

def Store.insert (st : Store) (cv : ConfigurationVersion) : Store :=
  ⟨st.cvs ++ [cv]⟩

def Store.del (st : Store) (id : String) : Store :=
  ⟨st.cvs.filter (fun cv => cv.id ≠ id)⟩

def Store.update (st : Store) (cv : ConfigurationVersion) : Store :=
  ⟨st.cvs.map (fun old => if old.id = cv.id then cv else old)⟩

def Store.list (st : Store) (workspaceID : String) : List ConfigurationVersion :=
  st.cvs.filter (fun cv => cv.workspaceID = workspaceID)

/-- The RBAC actions taken against configuration versions. -/
inductive Action
  | createCV
  | listCVs
  | getCV
  | deleteCV
deriving DecidableEq, Repr

/-- The `internal.Authorizer` collaborator: `CanAccess(action, workspaceID)`
returns a subject (its name) or an authorization error. -/
abbrev Authorizer := Action → String → Except String String

/-- `configversion.CreateOptions` (the pointer-optional booleans are
modelled as plain booleans; only `source` matters to the claims). -/
structure CreateOptions where
  autoQueueRuns : Bool
  speculative : Bool
  source : CVSource
deriving DecidableEq, Repr

/-- Modelled from the spec: `configversion.NewConfigurationVersion` is not
under the analysed sources.  Per section 3 of the spec a version is
created in status `pending` and every transition appends a
`(status, timestamp)` entry; `newID` and `now` stand for the generated id
and clock reading. -/
def newConfigurationVersion (newID : String) (now : Nat) (workspaceID : String)
    (opts : CreateOptions) : ConfigurationVersion :=
  { id := newID, workspaceID := workspaceID, status := .pending,
    statusTimestamps := [(.pending, now)],
    autoQueueRuns := opts.autoQueueRuns, speculative := opts.speculative,
    source := opts.source, ingress := none }

/-- `Service.Create` (`service.go` lines 74-91): authorize against the
workspace, construct, persist. -/
def svcCreate (authz : Authorizer) (newID : String) (now : Nat) (st : Store)
    (workspaceID : String) (opts : CreateOptions) :
    Except String ConfigurationVersion × Store :=
  match authz .createCV workspaceID with
  | .error e => (.error e, st)
  | .ok _subject =>
    let cv := newConfigurationVersion newID now workspaceID opts
    (.ok cv, st.insert cv)

/-- `Service.List` (`service.go` lines 93-107). -/
def svcList (authz : Authorizer) (st : Store) (workspaceID : String) :
    Except String (List ConfigurationVersion) × Store :=
  match authz .listCVs workspaceID with
  | .error e => (.error e, st)
  | .ok _subject => (.ok (st.list workspaceID), st)

/-- `Service.canAccess` (`service.go` lines 162-168): resolve the version
to its workspace, then consult the Authorizer. -/
def svcCanAccess (authz : Authorizer) (a : Action) (st : Store) (cvID : String) :
    Except String String :=
  match st.get cvID with
  | none => .error "resource not found"
  | some cv => authz a cv.workspaceID

/-- `Service.Get` (`service.go` lines 109-122). -/
def svcGet (authz : Authorizer) (st : Store) (cvID : String) :
    Except String ConfigurationVersion × Store :=
  match svcCanAccess authz .getCV st cvID with
  | .error e => (.error e, st)
  | .ok _subject =>
    match st.get cvID with
    | none => (.error "resource not found", st)
    | some cv => (.ok cv, st)

/-- `Service.GetLatest` (`service.go` lines 124-137). -/
def svcGetLatest (authz : Authorizer) (st : Store) (workspaceID : String) :
    Except String ConfigurationVersion × Store :=
  match authz .getCV workspaceID with
  | .error e => (.error e, st)
  | .ok _subject =>
    match st.getLatest workspaceID with
    | none => (.error "resource not found", st)
    | some cv => (.ok cv, st)

/-- `Service.Delete` (`service.go` lines 139-152). -/
def svcDelete (authz : Authorizer) (st : Store) (cvID : String) :
    Except String Unit × Store :=
  match svcCanAccess authz .deleteCV st cvID with
  | .error e => (.error e, st)
  | .ok _subject => (.ok (), st.del cvID)

/-- Append a status transition entry and set the new status (the
status-timestamp bookkeeping of section 4.5). -/
def cvTransition (cv : ConfigurationVersion) (s : CVStatus) (now : Nat) :
    ConfigurationVersion :=
  { cv with status := s, statusTimestamps := cv.statusTimestamps ++ [(s, now)] }

/-- Modelled from the spec: `Service.UploadConfig` (reached through
`Service.Upload`, `service.go` lines 154-156) is not under the analysed
sources.  Per section 4.5 the bytes are handed to the blob cache keyed by
the id and the status transitions to `uploaded`; a storage failure
(`cacheOk = false`) transitions it to `errored`. -/
def svcUpload (cacheOk : Bool) (now : Nat) (st : Store) (cvID : String)
    (_config : Bytes) : Except String Unit × Store :=
  match st.get cvID with
  | none => (.error "resource not found", st)
  | some cv =>
    if cacheOk then (.ok (), st.update (cvTransition cv .uploaded now))
    else (.error "writing archive to cache", st.update (cvTransition cv .errored now))

/-! ### tfeapi configuration-version controllers
(`internal/controllers/tfeapi/configuration_version.go` and `utils.go`) -/

/-- `http.Header.Get`: the first value stored under the key, or the empty
string (keys are kept in canonical form). -/
def headerGet (hs : List (String × String)) (k : String) : String :=
  match hs.find? (fun p => p.1 = k) with
  | some p => p.2
  | none => ""

def headerSource : String := "X-Terraform-Integration"
def headerSourceCLI : String := "cloud"

/-- `isTerraformCLI` (`utils.go` lines 41-43). -/
def isTerraformCLI (r : HttpRequest) : Bool :=
  headerGet r.headers headerSource = headerSourceCLI

/-- `types.CVStatusTimestamps` as filled by
`convertConfigurationVersion`. -/
structure CVStatusTimestamps where
  queuedAt : Option Nat := none
  startedAt : Option Nat := none
  finishedAt : Option Nat := none
deriving DecidableEq, Repr

/-- The `types.ConfigurationVersion` response body (ingress attributes
reduced to the presence flag the converter sets). -/
structure TypesCV where
  id : String
  autoQueueRuns : Bool
  speculative : Bool
  source : String
  status : String
  statusTimestamps : CVStatusTimestamps
  uploadURL : String
  hasIngress : Bool
deriving DecidableEq, Repr

/-- The timestamp loop of `convertConfigurationVersion` lines 219-228:
pending fills `QueuedAt`, errored fills `FinishedAt`, uploaded fills
`StartedAt` (later entries overwrite earlier ones). -/
def convertTimestamps (l : List (CVStatus × Nat)) : CVStatusTimestamps :=
  l.foldl
    (fun acc p =>
      match p.1 with
      | .pending => { acc with queuedAt := some p.2 }
      | .errored => { acc with finishedAt := some p.2 }
      | .uploaded => { acc with startedAt := some p.2 })
    {}

/-- `convertConfigurationVersion` (`configuration_version.go` lines
204-230). -/
def convertConfigurationVersion (cv : ConfigurationVersion) (url : String) : TypesCV :=
  { id := cv.id, autoQueueRuns := cv.autoQueueRuns, speculative := cv.speculative,
    source := cv.source.str, status := cv.status.str,
    statusTimestamps := convertTimestamps cv.statusTimestamps,
    uploadURL := url, hasIngress := cv.ingress.isSome }

/-- The signer and configuration of `TerraformEnterpriseAPIService`:
`sign` is the `surl.Signer.Sign` collaborator (path and TTL to a signed
relative URL, or an error). -/
structure TfeService where
  sign : String → Nat → Except String String
  maxUploadSize : Nat

/-- `time.Hour`, modelled in seconds. -/
def timeHour : Nat := 3600

/-- Modelled from the spec: `http.Absolute` (package `internal/http`, not
under the analysed sources) resolves a relative URL against the scheme and
host of the request. -/
def absoluteURL (r : HttpRequest) (u : String) : String :=
  r.scheme ++ "://" ++ r.host ++ u

/-- `signConfigurationVersionUploadURL` (`configuration_version.go` lines
129-136). -/
def signConfigurationVersionUploadURL (s : TfeService) (r : HttpRequest) (id : String) :
    Except String String :=
  match s.sign ("/configuration-versions/" ++ id ++ "/upload") timeHour with
  | .error e => .error e
  | .ok url => .ok (absoluteURL r url)

/-- The decoded `types.ConfigurationVersionCreateOptions` body. -/
structure CVCreateParams where
  autoQueueRuns : Bool
  speculative : Bool
deriving DecidableEq, Repr

/-- `createConfigurationVersion` (`configuration_version.go` lines
92-127): source from the CLI header, service create, sign the upload URL,
convert. -/
def createConfigurationVersionHandler (s : TfeService) (authz : Authorizer)
    (newID : String) (now : Nat) (st : Store) (r : HttpRequest)
    (workspaceID : String) (params : CVCreateParams) :
    Except String TypesCV × Store :=
  let source := if isTerraformCLI r then CVSource.terraform else CVSource.api
  let opts : CreateOptions :=
    { autoQueueRuns := params.autoQueueRuns, speculative := params.speculative,
      source := source }
  match svcCreate authz newID now st workspaceID opts with
  | (.error e, st2) => (.error e, st2)
  | (.ok cv, st2) =>
    match signConfigurationVersionUploadURL s r cv.id with
    | .error e => (.error e, st2)
    | .ok url => (.ok (convertConfigurationVersion cv url), st2)

/-- `getConfigurationVersion` (`configuration_version.go` lines 35-47):
the conversion is passed the empty upload URL. -/
def getConfigurationVersionHandler (authz : Authorizer) (st : Store) (id : String) :
    Except String TypesCV × Store :=
  match svcGet authz st id with
  | (.error e, st2) => (.error e, st2)
  | (.ok cv, st2) => (.ok (convertConfigurationVersion cv ""), st2)

/-- `listConfigurationVersions` (`configuration_version.go` lines 49-74):
every item is converted with the empty upload URL. -/
def listConfigurationVersionsHandler (authz : Authorizer) (st : Store)
    (workspaceID : String) : Except String (List TypesCV) × Store :=
  match svcList authz st workspaceID with
  | (.error e, st2) => (.error e, st2)
  | (.ok cvs, st2) => (.ok (cvs.map (fun cv => convertConfigurationVersion cv "")), st2)

/-- What an invocation of `UploadConfigurationVersion` leaves behind:
the explicit error responses written (status code and message, in
order), the payload handed to `Service.Upload` when that call was
reached, and the resulting store. -/
structure UploadOutcome where
  writes : List (Nat × String)
  uploadArg : Option Bytes
  store : Store
deriving DecidableEq, Repr

/-- `UploadConfigurationVersion` (`configuration_version.go` lines
138-160).  `buf` is `io.ReadAll(io.LimitReader(r.Body, maxUploadSize+1))`.
The source writes the 422 oversize error WITHOUT returning, so control
falls through to the `Upload` call even when the size check fired; the
generic `tfeapi.Error` on an upload failure is modelled as a 500 write. -/
def uploadConfigurationVersionHandler (s : TfeService) (cacheOk : Bool) (now : Nat)
    (st : Store) (id : String) (body : Bytes) : UploadOutcome :=
  let buf := body.take (s.maxUploadSize + 1)
  let sizeWrites : List (Nat × String) :=
    if buf.length > s.maxUploadSize then
      [(422, "configuration version exceeds maximum size (" ++
             toString s.maxUploadSize ++ " bytes)")]
    else []
  match svcUpload cacheOk now st id buf with
  | (.ok _, st2) => { writes := sizeWrites, uploadArg := some buf, store := st2 }
  | (.error e, st2) => { writes := sizeWrites ++ [(500, e)], uploadArg := some buf, store := st2 }

/-! ### Concrete collaborators and fixtures used by the witnesses -/

/-- An Authorizer that denies every access. -/
def denyAll : Authorizer := fun _ _ => .error "unauthorized"

/-- An Authorizer that grants every access to a fixed subject. -/
def allowAll : Authorizer := fun _ _ => .ok "subject"

/-- A pending configuration version on workspace `ws-1`. -/
def exCV : ConfigurationVersion :=
  { id := "cv-1", workspaceID := "ws-1", status := .pending,
    statusTimestamps := [(.pending, 0)], autoQueueRuns := false, speculative := false,
    source := .api, ingress := none }

/-- A store holding exactly `exCV`. -/
def exStore : Store := ⟨[exCV]⟩

/-- A service whose signer returns the path unchanged and whose upload
limit is 100 bytes. -/
def exSigner : TfeService := { sign := fun p _ => .ok p, maxUploadSize := 100 }

/-- A request carrying the terraform CLI integration header. -/
def exReqCLI : HttpRequest :=
  { method := "POST", scheme := "https", host := "otf.local",
    headers := [("X-Terraform-Integration", "cloud")] }

/-! ## Helper lemmas -/

/-- Every outcome of `tokenRedirector.Error` is a 302 redirect to the
redirect target it was built over, whose query carries the error
identifier, and the state when one was supplied. -/
theorem errorResp_dest (tr : TokenRedirector) (e d : String) (st : Nat) (u : GoURL)
    (h : tr.errorResp e d = .redirect st u) :
    st = 302 ∧ u.base = tr.redirect.base ∧ ("error", e) ∈ u.query ∧
    (tr.state ≠ "" → ("state", tr.state) ∈ u.query) := by
  unfold TokenRedirector.errorResp at h
  by_cases hd : d ≠ "" <;> by_cases hs : tr.state ≠ "" <;>
    simp only [hd, hs, ite_true, ite_false, if_pos, if_neg, not_true, not_false_iff,
      Response.redirect.injEq] at h
  all_goals obtain ⟨h1, h2⟩ := h
  all_goals subst h2
  all_goals refine ⟨h1.symm, rfl, ?_, ?_⟩ <;> simp_all

/-- Direct (non-redirect) errors of `Auth` happen exactly when the redirect
URI fails to parse or the client id is not the recognized constant. -/
theorem auth_direct_iff (s : AuthCtx) (p : AuthParams) :
    (∃ c m, auth s p = .directError c m) ↔
      (urlParse p.redirectURI = none ∨ p.clientID ≠ OAuthClientID) := by
  constructor
  · rintro ⟨c, m, h⟩
    cases hu : urlParse p.redirectURI with
    | none => exact Or.inl rfl
    | some redirect =>
      by_cases hc : p.clientID ≠ OAuthClientID
      · exact Or.inr hc
      · exfalso
        simp only [auth, hu] at h
        rw [if_neg hc] at h
        repeat' split at h
        all_goals simp [TokenRedirector.errorResp] at h
  · intro hcase
    cases hu : urlParse p.redirectURI with
    | none => exact ⟨400, "invalid redirect_uri", by simp [auth, hu]⟩
    | some redirect =>
      cases hcase with
      | inl h0 => rw [hu] at h0; exact absurd h0 (by simp)
      | inr hc => exact ⟨400, ErrInvalidClient, by simp [auth, hu, hc]⟩

/-- Every redirect-delivered outcome of `Auth` is a 302 to the parsed
redirectURI, carrying an `error` query parameter, and the original state
when one was supplied. -/
theorem auth_redirect_shape (s : AuthCtx) (p : AuthParams) (st : Nat) (u : GoURL)
    (h : auth s p = .redirect st u) :
    st = 302 ∧
    (∃ redirect, urlParse p.redirectURI = some redirect ∧ u.base = redirect.base) ∧
    (∃ e, ("error", e) ∈ u.query) ∧
    (p.state ≠ "" → ("state", p.state) ∈ u.query) := by
  cases hu : urlParse p.redirectURI with
  | none => simp [auth, hu] at h
  | some redirect =>
    by_cases hc : p.clientID ≠ OAuthClientID
    · simp only [auth, hu] at h
      rw [if_pos hc] at h
      simp at h
    · simp only [auth, hu] at h
      rw [if_neg hc] at h
      repeat' split at h
      all_goals first
        | (simp at h)
        | (obtain ⟨h1, hb, h2, h3⟩ := errorResp_dest _ _ _ _ _ h
           exact ⟨h1, ⟨redirect, rfl, hb⟩, ⟨_, h2⟩, h3⟩)

/-- Direct (non-redirect) errors of `Token` happen exactly when the
redirect URI fails to parse or the client id is not the recognized
constant. -/
theorem token_direct_iff (s : TokenCtx) (p : TokenParams) :
    (∃ c m, token s p = .directError c m) ↔
      (urlParse p.redirectURI = none ∨ p.clientID ≠ OAuthClientID) := by
  constructor
  · rintro ⟨c, m, h⟩
    cases hu : urlParse p.redirectURI with
    | none => exact Or.inl rfl
    | some redirect =>
      by_cases hc : p.clientID ≠ OAuthClientID
      · exact Or.inr hc
      · exfalso
        simp only [token, hu] at h
        rw [if_neg hc] at h
        repeat' split at h
        all_goals simp [TokenRedirector.errorResp] at h
  · intro hcase
    cases hu : urlParse p.redirectURI with
    | none => exact ⟨400, "invalid redirect_uri", by simp [token, hu]⟩
    | some redirect =>
      cases hcase with
      | inl h0 => rw [hu] at h0; exact absurd h0 (by simp)
      | inr hc => exact ⟨400, ErrInvalidClient, by simp [token, hu, hc]⟩

/-- Every redirect-delivered outcome of `Token` is a 302 to the parsed
redirectURI, carrying an `error` query parameter. -/
theorem token_redirect_shape (s : TokenCtx) (p : TokenParams) (st : Nat) (u : GoURL)
    (h : token s p = .redirect st u) :
    st = 302 ∧
    (∃ redirect, urlParse p.redirectURI = some redirect ∧ u.base = redirect.base) ∧
    (∃ e, ("error", e) ∈ u.query) := by
  cases hu : urlParse p.redirectURI with
  | none => simp [token, hu] at h
  | some redirect =>
    by_cases hc : p.clientID ≠ OAuthClientID
    · simp only [token, hu] at h
      rw [if_pos hc] at h
      simp at h
    · simp only [token, hu] at h
      rw [if_neg hc] at h
      repeat' split at h
      all_goals first
        | (simp at h)
        | (obtain ⟨h1, hb, h2, _⟩ := errorResp_dest _ _ _ _ _ h
           exact ⟨h1, ⟨redirect, rfl, hb⟩, ⟨_, h2⟩⟩)

/-- Evaluation of `Token` on a well-formed request carrying a code sealed
under the service secret: the outcome is decided by the PKCE comparison
and then by the token issuer. -/
theorem token_eval (secret m u verifier redirectURI challenge : String)
    (redirect : GoURL) (issuer : String → Option String)
    (hu : urlParse redirectURI = some redirect) (hv : verifier ≠ "") :
    token ⟨secret, issuer⟩
      ⟨OAuthClientID, some (sealCode ⟨challenge, m, u⟩ secret), verifier,
       "authorization_code", redirectURI⟩ =
      (if pkceChallenge verifier ≠ challenge then
        TokenRedirector.errorResp ⟨redirect, ""⟩ ErrInvalidGrant (pkceChallenge verifier)
      else match issuer u with
        | none => TokenRedirector.errorResp ⟨redirect, ""⟩ ErrInvalidRequest "creating token failed"
        | some tok =>
            .tokenJSON 200 [("Content-Type", "application/json"), ("Cache-Control", "no-store")]
              tok "bearer") := by
  simp [token, hu, hv, sealCode, openCode]

/-! ## Claim theorems -/

/-- C1: an oversized PUT (maxUploadSize = 100, 101-byte payload) does get
the 422 response carrying the configured limit, but the handler falls
through: the 101-byte buffer is still forwarded to the Upload operation
and the version transitions to uploaded.  This evaluates the embedded
handler at the failing input and exhibits the divergence from the claim
(the missing early return after the 422 write). -/
theorem c1_oversize_upload_falls_through :
    (uploadConfigurationVersionHandler exSigner true 5 exStore "cv-1"
        (List.replicate 101 7)).writes =
      [(422, "configuration version exceeds maximum size (100 bytes)")] ∧
    (uploadConfigurationVersionHandler exSigner true 5 exStore "cv-1"
        (List.replicate 101 7)).uploadArg = some (List.replicate 101 7) ∧
    ((uploadConfigurationVersionHandler exSigner true 5 exStore "cv-1"
        (List.replicate 101 7)).store.get "cv-1").map (fun cv => cv.status) =
      some CVStatus.uploaded := by
  decide

/-- C2 counterexample: with the empty code verifier and a code sealed at
Auth time whose embedded challenge is base64url(sha256("")), the
recomputed challenge equals the embedded one, yet Token does not succeed
(it rejects the request as missing its code verifier): the biconditional
of the claim fails at this input. -/
theorem c2_empty_verifier_counterexample :
    ¬ (((token ⟨"k", fun _ => some "tok"⟩
          ⟨"terraform",
           some (sealCode ⟨pkceChallenge "", "S256", "bobby"⟩ "k"),
           "", "authorization_code", "https://localhost:10000"⟩).isSuccessToken = true)
        ↔ pkceChallenge "" = pkceChallenge "") := by
  decide

/-- C2 (amended to non-empty verifiers): for every non-empty code verifier
and every code sealed at Auth time with an embedded challenge, a
well-formed Token request succeeds iff base64url(sha256(verifier)) equals
the embedded challenge; on mismatch it delivers a 302 redirect carrying
error=invalid_grant; and every verifier whose recomputed challenge
differs from the embedded one (in particular any mutation that changes
the hash) fails. -/
theorem c2_token_pkce_decides (secret challenge m u tok verifier redirectURI : String)
    (redirect : GoURL) (issuer : String → Option String)
    (hu : urlParse redirectURI = some redirect)
    (hv : verifier ≠ "")
    (hissuer : issuer u = some tok) :
    ((token ⟨secret, issuer⟩
        ⟨OAuthClientID, some (sealCode ⟨challenge, m, u⟩ secret), verifier,
         "authorization_code", redirectURI⟩).isSuccessToken = true
      ↔ pkceChallenge verifier = challenge) ∧
    (pkceChallenge verifier ≠ challenge →
      ∃ url, token ⟨secret, issuer⟩
          ⟨OAuthClientID, some (sealCode ⟨challenge, m, u⟩ secret), verifier,
           "authorization_code", redirectURI⟩ = .redirect 302 url ∧
        ("error", "invalid_grant") ∈ url.query) ∧
    (∀ v2, pkceChallenge v2 ≠ challenge →
      (token ⟨secret, issuer⟩
        ⟨OAuthClientID, some (sealCode ⟨challenge, m, u⟩ secret), v2,
         "authorization_code", redirectURI⟩).isSuccessToken = false) := by
  refine ⟨?_, ?_, ?_⟩
  · rw [token_eval secret m u verifier redirectURI challenge redirect issuer hu hv]
    by_cases hm : pkceChallenge verifier = challenge
    · simp [hm, hissuer, Response.isSuccessToken]
    · simp [hm, TokenRedirector.errorResp, Response.isSuccessToken]
  · intro hm
    rw [token_eval secret m u verifier redirectURI challenge redirect issuer hu hv]
    rw [if_pos hm]
    refine ⟨_, rfl, ?_⟩
    by_cases hne : pkceChallenge verifier = "" <;> simp [hne, ErrInvalidGrant]
  · intro v2 hm
    by_cases hv2 : v2 = ""
    · subst hv2
      simp [token, hu, Response.isSuccessToken, TokenRedirector.errorResp]
    · rw [token_eval secret m u v2 redirectURI challenge redirect issuer hu hv2]
      simp [hm, TokenRedirector.errorResp, Response.isSuccessToken]

/-- C2 witness: the amended theorem applied at the verifier `myverifier`
and its genuine SHA-256 challenge. -/
theorem c2_token_pkce_decides_witness :
    (token ⟨"k", fun _ => some "tok"⟩
        ⟨OAuthClientID,
         some (sealCode ⟨"Eb223qLjTQNFkRjCVsrDbsBk5ycPKwHdbHNRX99tTeQ", "S256", "bobby"⟩ "k"),
         "myverifier", "authorization_code", "https://localhost:10000"⟩).isSuccessToken = true
      ↔ pkceChallenge "myverifier" = "Eb223qLjTQNFkRjCVsrDbsBk5ycPKwHdbHNRX99tTeQ" :=
  (c2_token_pkce_decides "k" "Eb223qLjTQNFkRjCVsrDbsBk5ycPKwHdbHNRX99tTeQ" "S256" "bobby"
    "tok" "myverifier" "https://localhost:10000" ⟨"https://localhost:10000", []⟩
    (fun _ => some "tok") (by decide) (by decide) rfl).1

/-- C3: under an Authorizer that returns an authorization error, every
lifecycle operation (Create, List, GetLatest, Get, Delete) returns that
error and leaves the store exactly as it was: no configuration version is
created or deleted. -/
theorem c3_authz_denied_no_mutation (authz : Authorizer) (e : String)
    (hd : ∀ a w, authz a w = .error e) (st : Store) :
    (∀ newID now ws opts, svcCreate authz newID now st ws opts = (.error e, st)) ∧
    (∀ ws, svcList authz st ws = (.error e, st)) ∧
    (∀ ws, svcGetLatest authz st ws = (.error e, st)) ∧
    (∀ cvID cv, st.get cvID = some cv → svcGet authz st cvID = (.error e, st)) ∧
    (∀ cvID cv, st.get cvID = some cv → svcDelete authz st cvID = (.error e, st)) := by
  refine ⟨?_, ?_, ?_, ?_, ?_⟩
  · intro newID now ws opts; simp [svcCreate, hd]
  · intro ws; simp [svcList, hd]
  · intro ws; simp [svcGetLatest, hd]
  · intro cvID cv h; simp [svcGet, svcCanAccess, h, hd]
  · intro cvID cv h; simp [svcDelete, svcCanAccess, h, hd]

/-- C3 witness: the theorem applied to the all-denying Authorizer over the
one-element store: Create and Delete error out and mutate nothing. -/
theorem c3_authz_denied_no_mutation_witness :
    svcCreate denyAll "cv-2" 7 exStore "ws-1" ⟨false, false, .api⟩ =
      (.error "unauthorized", exStore) ∧
    svcDelete denyAll exStore "cv-1" = (.error "unauthorized", exStore) := by
  obtain ⟨h1, _, _, _, h5⟩ :=
    c3_authz_denied_no_mutation denyAll "unauthorized" (fun _ _ => rfl) exStore
  exact ⟨h1 "cv-2" 7 "ws-1" ⟨false, false, .api⟩, h5 "cv-1" exCV (by decide)⟩

/-- C4: a version returned by Create has status pending (with the pending
timestamp entry); a successful Upload transitions the stored version to
uploaded and appends an (uploaded, now) timestamp entry; a failed store
write transitions it to errored with an (errored, now) entry. -/
theorem c4_lifecycle_transitions (authz : Authorizer) (newID : String) (now : Nat)
    (st : Store) (ws : String) (opts : CreateOptions) (sub : String)
    (hok : authz .createCV ws = .ok sub) :
    (∃ cv st2, svcCreate authz newID now st ws opts = (.ok cv, st2) ∧
       cv.status = .pending ∧ cv.statusTimestamps = [(.pending, now)]) ∧
    (∀ st3 cvID cfg cv, st3.get cvID = some cv →
       svcUpload true now st3 cvID cfg =
         (.ok (), st3.update (cvTransition cv .uploaded now)) ∧
       (cvTransition cv .uploaded now).status = .uploaded ∧
       (CVStatus.uploaded, now) ∈ (cvTransition cv .uploaded now).statusTimestamps) ∧
    (∀ st3 cvID cfg cv, st3.get cvID = some cv →
       svcUpload false now st3 cvID cfg =
         (.error "writing archive to cache", st3.update (cvTransition cv .errored now)) ∧
       (cvTransition cv .errored now).status = .errored ∧
       (CVStatus.errored, now) ∈ (cvTransition cv .errored now).statusTimestamps) := by
  refine ⟨?_, ?_, ?_⟩
  · refine ⟨newConfigurationVersion newID now ws opts,
      st.insert (newConfigurationVersion newID now ws opts), ?_, rfl, rfl⟩
    simp [svcCreate, hok]
  · intro st3 cvID cfg cv h
    refine ⟨by simp [svcUpload, h], rfl, ?_⟩
    simp [cvTransition]
  · intro st3 cvID cfg cv h
    refine ⟨by simp [svcUpload, h], rfl, ?_⟩
    simp [cvTransition]

/-- C4 witness: the successful-upload clause applied to the pending
version of the example store. -/
theorem c4_lifecycle_transitions_witness :
    svcUpload true 3 exStore "cv-1" [7] =
      (.ok (), exStore.update (cvTransition exCV .uploaded 3)) ∧
    (cvTransition exCV .uploaded 3).status = .uploaded ∧
    (CVStatus.uploaded, 3) ∈ (cvTransition exCV .uploaded 3).statusTimestamps :=
  (c4_lifecycle_transitions allowAll "cv-9" 3 exStore "ws-1" ⟨false, false, .api⟩
    "subject" rfl).2.1 exStore "cv-1" [7] exCV (by decide)

/-- C5: errors of Auth and Token travel on exactly two channels.  A direct
(non-redirect) client error occurs precisely when the redirect URI fails
to parse or the client id differs from the recognized constant; every
redirect-delivered outcome (the only other error channel) is a 302 whose
destination is the parsed redirectURI and whose query carries `error`,
and for Auth the original `state` whenever one was supplied. -/
theorem c5_two_error_channels :
    (∀ s p, (∃ c m, auth s p = .directError c m) ↔
        (urlParse p.redirectURI = none ∨ p.clientID ≠ OAuthClientID)) ∧
    (∀ s p st u, auth s p = .redirect st u →
        st = 302 ∧
        (∃ redirect, urlParse p.redirectURI = some redirect ∧ u.base = redirect.base) ∧
        (∃ e, ("error", e) ∈ u.query) ∧
        (p.state ≠ "" → ("state", p.state) ∈ u.query)) ∧
    (∀ s p, (∃ c m, token s p = .directError c m) ↔
        (urlParse p.redirectURI = none ∨ p.clientID ≠ OAuthClientID)) ∧
    (∀ s p st u, token s p = .redirect st u →
        st = 302 ∧
        (∃ redirect, urlParse p.redirectURI = some redirect ∧ u.base = redirect.base) ∧
        (∃ e, ("error", e) ∈ u.query)) :=
  ⟨auth_direct_iff, auth_redirect_shape, token_direct_iff, token_redirect_shape⟩

/-- C5 witness: the first clause applied at a request with an unrecognized
client id yields a direct error. -/
theorem c5_two_error_channels_witness :
    ∃ c m, auth ⟨"k", "POST", some "bobby"⟩
      { clientID := "evil", codeChallenge := "x", codeChallengeMethod := "S256",
        redirectURI := "https://localhost:10000", responseType := "code",
        state := "s", consented := true } = .directError c m :=
  (c5_two_error_channels.1 _ _).mpr (Or.inr (by decide))

/-- C6: an Auth request that passes the redirect-URI and client-id checks
but carries a response type other than "code" is answered with a 302
redirect to the parsed redirectURI whose query contains
error=unsupported_response_type, and the original state value when one
was supplied. -/
theorem c6_unsupported_response_type_redirect (s : AuthCtx) (p : AuthParams)
    (redirect : GoURL)
    (hu : urlParse p.redirectURI = some redirect)
    (hc : p.clientID = OAuthClientID)
    (hrt : p.responseType ≠ "code") :
    ∃ u, auth s p = .redirect 302 u ∧ u.base = redirect.base ∧
      ("error", "unsupported_response_type") ∈ u.query ∧
      (p.state ≠ "" → ("state", p.state) ∈ u.query) := by
  have heq : auth s p = TokenRedirector.errorResp ⟨redirect, p.state⟩
      ErrUnsupportedResponseType "unsupported response type" := by
    simp [auth, hu, hc, hrt]
  by_cases hs : p.state ≠ "" <;>
    simp [heq, TokenRedirector.errorResp, hs, ErrUnsupportedResponseType]

/-- C6 witness: the theorem applied at a concrete request with response
type "token" and state "somethingrandom"; the redirect goes to the
supplied localhost redirect URI. -/
theorem c6_unsupported_response_type_redirect_witness :
    ∃ u, auth ⟨"k", "POST", some "bobby"⟩
      { clientID := "terraform", codeChallenge := "x", codeChallengeMethod := "S256",
        redirectURI := "https://localhost:10000", responseType := "token",
        state := "somethingrandom", consented := true } = .redirect 302 u ∧
      u.base = "https://localhost:10000" ∧
      ("error", "unsupported_response_type") ∈ u.query ∧
      ("state", "somethingrandom") ∈ u.query := by
  obtain ⟨u, h1, hb, h2, h3⟩ := c6_unsupported_response_type_redirect
    ⟨"k", "POST", some "bobby"⟩
    { clientID := "terraform", codeChallenge := "x", codeChallengeMethod := "S256",
      redirectURI := "https://localhost:10000", responseType := "token",
      state := "somethingrandom", consented := true }
    ⟨"https://localhost:10000", []⟩ (by decide) (by decide) (by decide)
  exact ⟨u, h1, hb, h2, h3 (by decide)⟩

/-- C7: a successful Token exchange (sealed code opened under the service
secret, matching PKCE proof, issuer succeeds) responds 200 with headers
Content-Type: application/json and Cache-Control: no-store and the body
fields access_token (the minted token) and token_type "bearer". -/
theorem c7_token_success_response (secret m u tok verifier redirectURI : String)
    (redirect : GoURL) (issuer : String → Option String)
    (hu : urlParse redirectURI = some redirect)
    (hv : verifier ≠ "")
    (hissuer : issuer u = some tok) :
    token ⟨secret, issuer⟩
      ⟨OAuthClientID, some (sealCode ⟨pkceChallenge verifier, m, u⟩ secret), verifier,
       "authorization_code", redirectURI⟩ =
    .tokenJSON 200 [("Content-Type", "application/json"), ("Cache-Control", "no-store")]
      tok "bearer" := by
  rw [token_eval secret m u verifier redirectURI (pkceChallenge verifier) redirect issuer hu hv]
  simp [hissuer]

/-- C7 witness: the theorem applied at the concrete verifier
`myverifier`. -/
theorem c7_token_success_response_witness :
    token ⟨"k", fun _ => some "tok"⟩
      ⟨OAuthClientID, some (sealCode ⟨pkceChallenge "myverifier", "S256", "bobby"⟩ "k"),
       "myverifier", "authorization_code", "https://localhost:10000"⟩ =
    .tokenJSON 200 [("Content-Type", "application/json"), ("Cache-Control", "no-store")]
      "tok" "bearer" :=
  c7_token_success_response "k" "S256" "bobby" "tok" "myverifier" "https://localhost:10000"
    ⟨"https://localhost:10000", []⟩ (fun _ => some "tok") (by decide) (by decide) rfl

set_option maxRecDepth 20000 in
/-- C8: the Discovery endpoint is deterministic (any two invocations yield
the same response, whose body is the one precomputed payload, pinned here
byte for byte) and in that payload login.v1.client is "terraform" and
login.v1.ports is [10000, 10010]. -/
theorem c8_discovery_deterministic :
    (∀ r₁ r₂ : HttpRequest, discovery r₁ = discovery r₂) ∧
    (∀ r : HttpRequest, (discovery r).status = 200 ∧
      (discovery r).headers = [("Content-Type", "application/json")] ∧
      (discovery r).body = discoveryPayload) ∧
    loginV1.client = "terraform" ∧ loginV1.ports = [10000, 10010] ∧
    discoveryPayload =
      "\x7b\"login.v1\":\x7b\"authz\":\"/app/oauth2/auth\",\"token\":\"/oauth2/token\",\"client\":\"terraform\",\"ports\":[10000,10010]\x7d,\"modules.v1\":\"/v1/modules/\",\"motd.v1\":\"/api/terraform/motd\",\"state.v2\":\"/api/v2/\",\"tfe.v2\":\"/api/v2/\",\"tfe.v2.1\":\"/api/v2/\",\"tfe.v2.2\":\"/api/v2/\"\x7d" :=
  ⟨fun _ _ => rfl, fun _ => ⟨rfl, rfl, rfl⟩, rfl, rfl, rfl⟩

/-- C9: the version created by the create-configuration-version handler
has source terraform-cli exactly when the request carries the
X-Terraform-Integration header with value "cloud", and source api for
every other request. -/
theorem c9_source_from_cli_header (s : TfeService) (authz : Authorizer) (newID : String)
    (now : Nat) (st : Store) (r : HttpRequest) (ws : String) (params : CVCreateParams)
    (sub surl : String)
    (hok : authz .createCV ws = .ok sub)
    (hsig : s.sign ("/configuration-versions/" ++ newID ++ "/upload") timeHour = .ok surl) :
    ∃ tcv st2,
      createConfigurationVersionHandler s authz newID now st r ws params = (.ok tcv, st2) ∧
      (tcv.source = "terraform-cli" ↔
        headerGet r.headers "X-Terraform-Integration" = "cloud") ∧
      (headerGet r.headers "X-Terraform-Integration" ≠ "cloud" → tcv.source = "api") := by
  have heq : createConfigurationVersionHandler s authz newID now st r ws params =
      (.ok (convertConfigurationVersion
              (newConfigurationVersion newID now ws
                ⟨params.autoQueueRuns, params.speculative,
                 if isTerraformCLI r then CVSource.terraform else CVSource.api⟩)
              (absoluteURL r surl)),
       st.insert (newConfigurationVersion newID now ws
                ⟨params.autoQueueRuns, params.speculative,
                 if isTerraformCLI r then CVSource.terraform else CVSource.api⟩)) := by
    simp only [createConfigurationVersionHandler, svcCreate, hok]
    simp [signConfigurationVersionUploadURL, newConfigurationVersion, hsig]
  refine ⟨_, _, heq, ?_, ?_⟩
  · by_cases hcli : isTerraformCLI r
    · simp [convertConfigurationVersion, newConfigurationVersion, hcli, CVSource.str]
      exact (of_decide_eq_true hcli : headerGet r.headers headerSource = headerSourceCLI)
    · simp [convertConfigurationVersion, newConfigurationVersion, hcli, CVSource.str]
      intro h
      exact absurd (by simp [isTerraformCLI, headerSource, headerSourceCLI, h]) hcli
  · intro hne
    have hcli : ¬ isTerraformCLI r := by
      simp [isTerraformCLI, headerSource, headerSourceCLI, hne]
    simp [convertConfigurationVersion, newConfigurationVersion, hcli, CVSource.str]

/-- C9 witness: the theorem applied at a request carrying the CLI header
with value "cloud". -/
theorem c9_source_from_cli_header_witness :
    ∃ tcv st2,
      createConfigurationVersionHandler exSigner allowAll "cv-9" 3 exStore exReqCLI
        "ws-1" ⟨false, false⟩ = (.ok tcv, st2) ∧
      (tcv.source = "terraform-cli" ↔
        headerGet exReqCLI.headers "X-Terraform-Integration" = "cloud") ∧
      (headerGet exReqCLI.headers "X-Terraform-Integration" ≠ "cloud" →
        tcv.source = "api") :=
  c9_source_from_cli_header exSigner allowAll "cv-9" 3 exStore exReqCLI "ws-1"
    ⟨false, false⟩ "subject" "/configuration-versions/cv-9/upload" rfl rfl

/-- C10: the upload URL of a freshly created version with id `newID` is
the signer output for exactly the path /configuration-versions/newID/upload
with a one-hour TTL, made absolute against the request; the responses of
Get and List always carry an empty upload URL. -/
theorem c10_upload_url_signing (s : TfeService) (authz : Authorizer) (newID : String)
    (now : Nat) (st : Store) (r : HttpRequest) (ws : String) (params : CVCreateParams)
    (sub surl : String)
    (hok : authz .createCV ws = .ok sub)
    (hsig : s.sign ("/configuration-versions/" ++ newID ++ "/upload") timeHour = .ok surl) :
    (∃ tcv st2,
      createConfigurationVersionHandler s authz newID now st r ws params = (.ok tcv, st2) ∧
      tcv.id = newID ∧ tcv.uploadURL = absoluteURL r surl) ∧
    (∀ id tcv st2, getConfigurationVersionHandler authz st id = (.ok tcv, st2) →
      tcv.uploadURL = "") ∧
    (∀ ws2 items st2, listConfigurationVersionsHandler authz st ws2 = (.ok items, st2) →
      ∀ t ∈ items, t.uploadURL = "") := by
  refine ⟨?_, ?_, ?_⟩
  · have heq : createConfigurationVersionHandler s authz newID now st r ws params =
        (.ok (convertConfigurationVersion
                (newConfigurationVersion newID now ws
                  ⟨params.autoQueueRuns, params.speculative,
                   if isTerraformCLI r then CVSource.terraform else CVSource.api⟩)
                (absoluteURL r surl)),
         st.insert (newConfigurationVersion newID now ws
                  ⟨params.autoQueueRuns, params.speculative,
                   if isTerraformCLI r then CVSource.terraform else CVSource.api⟩)) := by
      simp only [createConfigurationVersionHandler, svcCreate, hok]
      simp [signConfigurationVersionUploadURL, newConfigurationVersion, hsig]
    exact ⟨_, _, heq, rfl, rfl⟩
  · intro id tcv st2 h
    unfold getConfigurationVersionHandler at h
    cases hg : svcGet authz st id with
    | mk res st3 =>
      rw [hg] at h
      cases res with
      | error e => simp at h
      | ok cv =>
        simp at h
        obtain ⟨h1, _⟩ := h
        rw [← h1]
        rfl
  · intro ws2 items st2 h
    unfold listConfigurationVersionsHandler at h
    cases hg : svcList authz st ws2 with
    | mk res st3 =>
      rw [hg] at h
      cases res with
      | error e => simp at h
      | ok cvs =>
        simp at h
        obtain ⟨h1, _⟩ := h
        intro t ht
        rw [← h1] at ht
        obtain ⟨cv, _, hconv⟩ := List.mem_map.mp ht
        rw [← hconv]
        rfl

/-- C10 witness: the create clause applied with the identity signer: the
upload URL is the absolute form of the signed path for cv-9 with the
one-hour TTL. -/
theorem c10_upload_url_signing_witness :
    ∃ tcv st2,
      createConfigurationVersionHandler exSigner allowAll "cv-9" 3 exStore exReqCLI
        "ws-1" ⟨false, false⟩ = (.ok tcv, st2) ∧
      tcv.id = "cv-9" ∧
      tcv.uploadURL = absoluteURL exReqCLI "/configuration-versions/cv-9/upload" :=
  (c10_upload_url_signing exSigner allowAll "cv-9" 3 exStore exReqCLI "ws-1"
    ⟨false, false⟩ "subject" "/configuration-versions/cv-9/upload" rfl rfl).1

end OTF
